import Mathlib

/-
  Verification of the Promethica tool-invocation engine (src/promethica.py)
  against its natural-language specification.

  The embedding models the Python code shallowly:
  - JSON values (tool arguments, upstream payloads) as the inductive `Json`;
  - Python dicts as association lists looked up by key;
  - `aiohttp` responses as an oracle `Request → HttpOutcome` supplied to each
    tool, so that the set of requests a tool issues is explicit in its result;
  - raised exceptions as `Except PyExc`;
  - string operations (`strip`, `upper`, substring `in`) as structurally
    recursive functions over the character list, so that every definition
    evaluates inside the kernel.
-/

namespace Promethica

/-- JSON values: the type of tool arguments and of decoded upstream payloads. -/
inductive Json where
  | null : Json
  | bool : Bool → Json
  | num : Int → Json
  | str : String → Json
  | arr : List Json → Json
  | obj : List (String × Json) → Json

/-- A tool's raw argument mapping (`Dict[str, Any]` in the source). -/
abbrev Args := List (String × Json)

/-- Python `args.get(k)`: the value at `k`, or `None` when the key is absent. -/
def pyGet (args : Args) (k : String) : Json :=
  (List.lookup k args).getD .null

/-- Python `strip()` modelled structurally: drop whitespace from both ends. -/
def pyStrip (s : String) : String :=
  String.mk (((s.data.dropWhile Char.isWhitespace).reverse.dropWhile Char.isWhitespace).reverse)

/-- Python `upper()` restricted to the ASCII range the tools use. -/
def pyUpper (s : String) : String :=
  String.mk (s.data.map Char.toUpper)

/-- Python substring test `needle in haystack` on strings. -/
def containsSubstr (h n : String) : Bool :=
  (List.range (h.data.length + 1)).any (fun i => n.data.isPrefixOf (h.data.drop i))

/-- Python truthiness of a JSON-shaped value. -/
def pyTruthy : Json → Bool
  | .null => false
  | .bool b => b
  | .num n => n != 0
  | .str s => s != ""
  | .arr xs => !xs.isEmpty
  | .obj kvs => !kvs.isEmpty

/-- Python `isinstance(v, int)` together with the integer it denotes
    (Python `bool` is a subtype of `int`). -/
def pyIntVal : Json → Option Int
  | .num n => some n
  | .bool b => some (if b then 1 else 0)
  | _ => none

/-- The string a value denotes where the source has already established it is
    a `str`; the fallback branch is unreachable behind the validators. -/
def jStr : Json → String
  | .str s => s
  | _ => ""

/-- `isinstance(v, str) and v.strip()`: a string that is non-blank after
    stripping, the shape every required string argument is checked for. -/
def isNonBlankStr : Json → Bool
  | .str s => pyStrip s != ""
  | _ => false

/-- `v and isinstance(v, str)`: a truthy (hence non-empty) string. -/
def isTruthyStr : Json → Bool
  | .str s => s != ""
  | _ => false

/-- The `organism` argument may be absent/None, otherwise must be a `str`. -/
def organismOk : Json → Bool
  | .null => true
  | .str _ => true
  | _ => false

/-- `size` must be an `int` within `[1, 500]`. -/
def sizeOk (v : Json) : Bool :=
  match pyIntVal v with
  | some n => 1 ≤ n && n ≤ 500
  | none => false

/-- `validate_protein_search_args` (src/promethica.py:64-77). -/
def validate_protein_search_args (args : Args) : Bool :=
  isNonBlankStr (pyGet args "query")
    && organismOk (pyGet args "organism")
    && sizeOk ((List.lookup "size" args).getD (.num 25))

/-- `validate_accession_args` (src/promethica.py:79-84). -/
def validate_accession_args (args : Args) : Bool :=
  isNonBlankStr (pyGet args "accession")

/-- `validate_pdb_id_args` (src/promethica.py:86-94). -/
def validate_pdb_id_args (args : Args) : Bool :=
  match pyGet args "pdb_id" with
  | .str s => pyStrip s != "" && (pyStrip s).length == 4
  | _ => false

/-- `validate_go_term_args` (src/promethica.py:96-104). -/
def validate_go_term_args (args : Args) : Bool :=
  isTruthyStr (pyGet args "go_term") || isTruthyStr (pyGet args "query")

/-- `validate_pathway_search_args` (src/promethica.py:106-111). -/
def validate_pathway_search_args (args : Args) : Bool :=
  isNonBlankStr (pyGet args "query")

/-- One HTTP request issued through the shared `aiohttp` session: method,
    URL, query parameters, and the JSON body for POST requests. -/
structure Request where
  method : String
  url : String
  params : List (String × Json)
  jsonData : Option Json

/-- What the network returns for a request: either an `aiohttp.ClientError`
    carrying a message, or a response with status, declared content type,
    body text, and — when the body is well-formed JSON — its decoded value. -/
inductive HttpOutcome where
  | fail : String → HttpOutcome
  | resp : Nat → String → String → Option Json → HttpOutcome

/-- The network oracle: what the upstream services answer to each request. -/
abbrev Env := Request → HttpOutcome

/-- A raised Python exception: a generic `Exception(msg)`, or a
    `json.JSONDecodeError` escaping from `response.json()` (its library
    message is abstracted to a fixed tag). -/
inductive PyExc where
  | exc : String → PyExc
  | jsonDecode : PyExc

/-- Python `str(e)` on a raised exception. -/
def excStr : PyExc → String
  | .exc m => m
  | .jsonDecode => "JSONDecodeError"

/-- API エンドポイント (src/promethica.py:36-42). -/
def apiUniprot : String := "https://rest.uniprot.org"

def apiReactome : String := "https://reactome.org/ContentService"

def apiPdb : String := "https://data.rcsb.org/rest/v1"

def apiPdbSearch : String := "https://search.rcsb.org/rcsbsearch/v2/query"

def apiGo : String := "http://api.geneontology.org/api"

/-- `make_request` (src/promethica.py:115-129): GET the URL; on status 200
    decode JSON when the declared content type contains `application/json`,
    otherwise wrap the raw text; on any other status raise
    `Exception("API request failed: {status} - {body}")`; on
    `aiohttp.ClientError` raise `Exception("Network error: {e}")`.
    A malformed JSON body under a JSON content type means `response.json()`
    raises a decode error that `make_request` does not catch.
    The second component lists the requests issued (always exactly one). -/
def make_request (env : Env) (url : String) (params : List (String × Json)) :
    Except PyExc Json × List Request :=
  let req : Request := ⟨"GET", url, params, none⟩
  match env req with
  | .fail msg => (.error (.exc ("Network error: " ++ msg)), [req])
  | .resp status ct body jb =>
    if status = 200 then
      if containsSubstr ct "application/json" then
        match jb with
        | some j => (.ok j, [req])
        | none => (.error .jsonDecode, [req])
      else (.ok (.obj [("text", .str body), ("content_type", .str ct)]), [req])
    else (.error (.exc ("API request failed: " ++ toString status ++ " - " ++ body)), [req])

/-- The text content of a returned `CallToolResult`: either `json.dumps`
    of a JSON value, or a literal string (error messages, sequence text).
    `json.loads` applied to the former recovers the value. -/
inductive TextOut where
  | jsonText : Json → TextOut
  | plain : String → TextOut

/-- `types.CallToolResult` as the tools build it: one text content plus the
    `isError` flag (default `false`). -/
structure CallToolResult where
  content : TextOut
  isError : Bool

/-- A tool invocation's outcome: the returned result or the exception it
    raises, together with the list of upstream requests it issued. -/
abbrev ToolRet := Except PyExc CallToolResult × List Request

/-- The shared `try/except` tail of the single-call tools: a successful
    `make_request` result is serialized with `json.dumps`; an exception is
    caught and rendered as an error-flagged result with the tool's
    label prepended to `str(e)`. -/
def wrapJson (r : Except PyExc Json) (label : String) : CallToolResult :=
  match r with
  | .ok result => ⟨.jsonText result, false⟩
  | .error e => ⟨.plain (label ++ excStr e), true⟩

/-- Percent-encoding of one UTF-8 byte as `urllib.parse.quote` does. -/
def hexDigit (n : Nat) : Char :=
  if n < 10 then Char.ofNat (48 + n) else Char.ofNat (55 + n)

def quoteByte (b : UInt8) : String :=
  let n := b.toNat
  if (65 ≤ n && n ≤ 90) || (97 ≤ n && n ≤ 122) || (48 ≤ n && n ≤ 57)
      || n = 95 || n = 46 || n = 45 || n = 126 || n = 47
  then String.singleton (Char.ofNat n)
  else "%" ++ String.singleton (hexDigit (n / 16)) ++ String.singleton (hexDigit (n % 16))

/-- `urllib.parse.quote` with its default safe set (letters, digits,
    `_.-~` and `/`). -/
def pyQuote (s : String) : String :=
  String.join (s.toUTF8.toList.map quoteByte)

mutual

/-- Python `str()`/f-string rendering of a JSON-shaped value, exact for the
    scalar values the validators admit; container rendering is JSON-style. -/
def jFormat : Json → String
  | .null => "None"
  | .bool true => "True"
  | .bool false => "False"
  | .num n => toString n
  | .str s => s
  | .arr xs => "[" ++ jFormatList xs ++ "]"
  | .obj kvs => "\x7b" ++ jFormatPairs kvs ++ "\x7d"

def jFormatList : List Json → String
  | [] => ""
  | [j] => jFormat j
  | j :: js => jFormat j ++ ", " ++ jFormatList js

def jFormatPairs : List (String × Json) → String
  | [] => ""
  | [(k, v)] => k ++ ": " ++ jFormat v
  | (k, v) :: kvs => k ++ ": " ++ jFormat v ++ ", " ++ jFormatPairs kvs

end

/-- `search_proteins` (src/promethica.py:133-170): validate, build the
    UniProt search query (appending the organism clause when the organism
    argument is truthy), issue one GET with the normalized `format`/`size`
    defaults, and wrap the outcome. Validation failure raises before any
    request. -/
def search_proteins (env : Env) (args : Args) : ToolRet :=
  if validate_protein_search_args args then
    let query := jStr (pyGet args "query")
    let organism := pyGet args "organism"
    let size := (List.lookup "size" args).getD (.num 25)
    let format_type := (List.lookup "format" args).getD (.str "json")
    let search_query :=
      if pyTruthy organism then
        query ++ " AND organism_name:\"" ++ jStr organism ++ "\""
      else query
    let mr := make_request env (apiUniprot ++ "/uniprotkb/search")
      [("query", .str search_query), ("format", format_type), ("size", size)]
    (.ok (wrapJson mr.1 "タンパク質検索エラー: "), mr.2)
  else (.error (.exc "Invalid protein search arguments"), [])

/-- `get_protein_info` (src/promethica.py:172-198). -/
def get_protein_info (env : Env) (args : Args) : ToolRet :=
  if validate_accession_args args then
    let accession := jStr (pyGet args "accession")
    let format_type := (List.lookup "format" args).getD (.str "json")
    let mr := make_request env (apiUniprot ++ "/uniprotkb/" ++ accession)
      [("format", format_type)]
    (.ok (wrapJson mr.1 "タンパク質情報取得エラー: "), mr.2)
  else (.error (.exc "Invalid accession arguments"), [])

/-- The text `get_protein_sequence` returns on success:
    `result.get("text", json.dumps(result))`. `none` marks the branches
    where that line itself raises (`.get` on a non-dict, or a non-string
    `text` value rejected by `types.TextContent`). -/
def sequenceText : Json → Option TextOut
  | .obj kvs =>
    match List.lookup "text" kvs with
    | some (.str t) => some (.plain t)
    | some _ => none
    | none => some (.jsonText (.obj kvs))
  | _ => none

/-- `get_protein_sequence` (src/promethica.py:200-226). -/
def get_protein_sequence (env : Env) (args : Args) : ToolRet :=
  if validate_accession_args args then
    let accession := jStr (pyGet args "accession")
    let format_type := (List.lookup "format" args).getD (.str "fasta")
    let mr := make_request env (apiUniprot ++ "/uniprotkb/" ++ accession)
      [("format", format_type)]
    match mr.1 with
    | .ok result =>
      match sequenceText result with
      | some t => (.ok ⟨t, false⟩, mr.2)
      | none => (.ok ⟨.plain ("配列取得エラー: " ++ "TypeError"), true⟩, mr.2)
    | .error e => (.ok ⟨.plain ("配列取得エラー: " ++ excStr e), true⟩, mr.2)
  else (.error (.exc "Invalid accession arguments"), [])

/-- The fixed JSON body POSTed to the RCSB search service
    (src/promethica.py:239-253). -/
def pdbQueryJson (query : String) : Json :=
  .obj [
    ("query", .obj [
      ("type", .str "terminal"),
      ("service", .str "text"),
      ("parameters", .obj [("value", .str query)])]),
    ("return_type", .str "entry"),
    ("request_options", .obj [
      ("return_all_hits", .bool true),
      ("results_verbosity", .str "minimal"),
      ("sort", .arr [.obj [("sort_by", .str "score"), ("direction", .str "desc")]])])]

/-- The POST request `search_pdb_structures` issues. -/
def pdbPostReq (args : Args) : Request :=
  ⟨"POST", apiPdbSearch, [], some (pdbQueryJson (jStr (pyGet args "query")))⟩

/-- The slice bound `search_pdb_structures` applies:
    `args.get("size", 25)` as a natural number. -/
def pdbSize (args : Args) : Nat :=
  ((pyIntVal ((List.lookup "size" args).getD (.num 25))).getD 25).toNat

/-- Python `x[:n]`: defined for lists and strings, a `TypeError` otherwise. -/
def sliceJson : Json → Nat → Option Json
  | .arr xs, n => some (.arr (xs.take n))
  | .str s, n => some (.str (String.mk (s.data.take n)))
  | _, _ => none

/-- Python `"result_set" in result`: key test on dicts, element test on
    lists, substring test on strings; a `TypeError` (`none`) otherwise. -/
def resultSetMember : Json → Option Bool
  | .obj kvs => some (List.lookup "result_set" kvs).isSome
  | .arr xs => some (xs.any fun j => match j with | .str s => s == "result_set" | _ => false)
  | .str s => some (containsSubstr s "result_set")
  | _ => none

/-- Replace the value stored under `k`, keeping the dict's key order. -/
def setKey (kvs : List (String × Json)) (k : String) (v : Json) : List (String × Json) :=
  match kvs with
  | [] => [(k, v)]
  | (k2, v2) :: rest => if k2 = k then (k, v) :: rest else (k2, v2) :: setKey rest k v

/-- The 結果を制限 step (src/promethica.py:263-264):
    `if "result_set" in result: result["result_set"] = result["result_set"][:size]`.
    `none` marks the unmodelled `TypeError` paths (membership test or item
    assignment on a value that supports neither). -/
def limitResultSet (result : Json) (n : Nat) : Option Json :=
  match resultSetMember result with
  | none => none
  | some false => some result
  | some true =>
    match result with
    | .obj kvs =>
      match List.lookup "result_set" kvs with
      | some v => (sliceJson v n).map (fun v2 => .obj (setKey kvs "result_set" v2))
      | none => some result
    | _ => none

/-- `search_pdb_structures` (src/promethica.py:230-281): validate, POST the
    search body, decode the JSON response, truncate `result_set` to the
    first `size` entries, and wrap every raised exception into an
    error-flagged result. -/
def search_pdb_structures (env : Env) (args : Args) : ToolRet :=
  if validate_protein_search_args args then
    let req := pdbPostReq args
    match env req with
    | .fail msg => (.ok ⟨.plain ("PDB検索エラー: " ++ msg), true⟩, [req])
    | .resp status ct _body jb =>
      if status = 200 then
        if containsSubstr ct "application/json" then
          match jb with
          | none => (.ok ⟨.plain ("PDB検索エラー: " ++ excStr .jsonDecode), true⟩, [req])
          | some result =>
            match limitResultSet result (pdbSize args) with
            | some limited => (.ok ⟨.jsonText limited, false⟩, [req])
            | none => (.ok ⟨.plain ("PDB検索エラー: " ++ "TypeError"), true⟩, [req])
        else (.ok ⟨.plain ("PDB検索エラー: " ++ "ContentTypeError"), true⟩, [req])
      else (.ok ⟨.plain ("PDB検索エラー: PDB search failed: " ++ toString status), true⟩, [req])
  else (.error (.exc "Invalid PDB search arguments"), [])

/-- `get_pdb_structure_info` (src/promethica.py:283-307): validate, then GET
    the detail endpoint for the uppercased `pdb_id`. -/
def get_pdb_structure_info (env : Env) (args : Args) : ToolRet :=
  if validate_pdb_id_args args then
    let pdb_id := pyUpper (jStr (pyGet args "pdb_id"))
    let mr := make_request env (apiPdb ++ "/core/entry/" ++ pdb_id) []
    (.ok (wrapJson mr.1 "PDB構造情報取得エラー: "), mr.2)
  else (.error (.exc "Invalid PDB ID arguments"), [])

/-- `search_pathways` (src/promethica.py:311-337). -/
def search_pathways (env : Env) (args : Args) : ToolRet :=
  if validate_pathway_search_args args then
    let query := jStr (pyGet args "query")
    let species := (List.lookup "species" args).getD (.str "Homo sapiens")
    let mr := make_request env (apiReactome ++ "/data/query/" ++ pyQuote query)
      [("species", species)]
    (.ok (wrapJson mr.1 "パスウェイ検索エラー: "), mr.2)
  else (.error (.exc "Invalid pathway search arguments"), [])

/-- `get_protein_pathways` (src/promethica.py:339-363). -/
def get_protein_pathways (env : Env) (args : Args) : ToolRet :=
  if validate_accession_args args then
    let accession := jStr (pyGet args "accession")
    let mr := make_request env
      (apiReactome ++ "/data/participants/" ++ accession ++ "/pathways") []
    (.ok (wrapJson mr.1 "タンパク質パスウェイ取得エラー: "), mr.2)
  else (.error (.exc "Invalid accession arguments"), [])

/-- `search_go_terms` (src/promethica.py:367-397): a truthy `go_term` picks
    the bioentity endpoint (f-string rendering of the raw value), otherwise
    the query goes to the entity-search endpoint percent-encoded. -/
def search_go_terms (env : Env) (args : Args) : ToolRet :=
  if validate_go_term_args args then
    let go_term := pyGet args "go_term"
    let url :=
      if pyTruthy go_term then apiGo ++ "/bioentity/" ++ jFormat go_term
      else apiGo ++ "/search/entity/" ++ pyQuote (jStr (pyGet args "query"))
    let mr := make_request env url []
    (.ok (wrapJson mr.1 "GO検索エラー: "), mr.2)
  else (.error (.exc "Invalid GO term arguments"), [])

def optJson : Option Json → Json
  | some j => j
  | none => .null

/-- One `try`-block of `comprehensive_protein_analysis`
    (src/promethica.py:416-437): run the sub-tool; when it raises, append
    the labelled `str(e)` to `error_messages`; when it returns a non-error
    result, `json.loads` its text into the source field; when it returns an
    error-flagged result, do nothing at all. The components are the decoded
    field value, the error messages appended, and the requests issued. -/
def subStep (r : ToolRet) (label : String) : Option Json × List String × List Request :=
  match r with
  | (.error e, reqs) => (none, [label ++ excStr e], reqs)
  | (.ok ctr, reqs) =>
    if ctr.isError then (none, [], reqs)
    else
      match ctr.content with
      | .jsonText j => (some j, [], reqs)
      | .plain _ => (none, [label ++ excStr .jsonDecode], reqs)

/-- `comprehensive_protein_analysis` (src/promethica.py:401-444): validate
    the accession, run the three sub-queries in order, and always return a
    non-error result assembling the per-source fields (`None` for a source
    that produced nothing) and the accumulated `error_messages`. -/
def comprehensive_protein_analysis (env : Env) (args : Args) : ToolRet :=
  if validate_accession_args args then
    let accession := jStr (pyGet args "accession")
    let s1 := subStep (get_protein_info env [("accession", .str accession)]) "UniProt取得エラー: "
    let s2 := subStep (get_protein_pathways env [("accession", .str accession)]) "パスウェイ取得エラー: "
    let s3 := subStep (search_pdb_structures env [("query", .str accession), ("size", .num 5)]) "PDB検索エラー: "
    let analysis : Json := .obj [
      ("accession", .str accession),
      ("uniprot_info", optJson s1.1),
      ("pathways", optJson s2.1),
      ("pdb_structures", optJson s3.1),
      ("error_messages", .arr ((s1.2.1 ++ s2.2.1 ++ s3.2.1).map .str))]
    (.ok ⟨.jsonText analysis, false⟩, s1.2.2 ++ s2.2.2 ++ s3.2.2)
  else (.error (.exc "Invalid accession arguments"), [])

/-- The tool-name dispatch chain inside `handle_call_tool`
    (src/promethica.py:574-593); an unknown name raises. -/
def dispatch (env : Env) (name : String) (args : Args) : ToolRet :=
  if name = "search_proteins" then search_proteins env args
  else if name = "get_protein_info" then get_protein_info env args
  else if name = "get_protein_sequence" then get_protein_sequence env args
  else if name = "search_pdb_structures" then search_pdb_structures env args
  else if name = "get_pdb_structure_info" then get_pdb_structure_info env args
  else if name = "search_pathways" then search_pathways env args
  else if name = "get_protein_pathways" then get_protein_pathways env args
  else if name = "search_go_terms" then search_go_terms env args
  else if name = "comprehensive_protein_analysis" then comprehensive_protein_analysis env args
  else (.error (.exc ("Unknown tool: " ++ name)), [])

/-- `handle_call_tool` (src/promethica.py:570-599): dispatch inside a
    `try/except Exception` that converts every raised exception into an
    error-flagged result prefixed `エラー: `. -/
def handle_call_tool (env : Env) (name : String) (args : Args) :
    Except PyExc CallToolResult × List Request :=
  let d := dispatch env name args
  match d.1 with
  | .ok r => (.ok r, d.2)
  | .error e => (.ok ⟨.plain ("エラー: " ++ excStr e), true⟩, d.2)

/-- Modelled from the spec: the repository source under src/ contains no
    Result Cache; §4.2 and §3 (CacheEntry) describe one keyed by request
    fingerprint with a per-entry TTL and a capacity bound evicting the
    least-recently-inserted entry. Entries are kept newest-first. -/
structure CacheEntry where
  value : Json
  insertedAt : Nat

structure ResultCache where
  ttl : Nat
  capacity : Nat
  entries : List (String × CacheEntry)

/-- Modelled from the spec: `put(fingerprint, value)` — replace any entry
    under the same fingerprint, evict the least-recently-inserted entry
    when at capacity, and record the insertion timestamp. -/
def ResultCache.put (c : ResultCache) (fp : String) (v : Json) (now : Nat) : ResultCache :=
  let removed := c.entries.filter (fun e => !(e.1 == fp))
  let trimmed := if c.capacity ≤ removed.length then removed.dropLast else removed
  { c with entries := (fp, ⟨v, now⟩) :: trimmed }

/-- Modelled from the spec: `get(fingerprint) -> value | absent` — an entry
    is visible only until `insertion_timestamp + TTL`; an expired entry is
    logically absent even while still stored. -/
def ResultCache.get (c : ResultCache) (fp : String) (now : Nat) : Option Json :=
  match List.lookup fp c.entries with
  | some e => if now < e.insertedAt + c.ttl then some e.value else none
  | none => none

/-- Modelled from the spec: the repository source under src/ contains no
    Cascade Resolver; §4.4 describes an ordered list of steps, each building
    its request from the accumulated context, fetching it, and extracting
    one identifier from the result for the next step's use. -/
structure CascadeStep where
  name : String
  buildReq : List (String × Json) → Request
  extractKey : String
  extract : Json → Option Json

inductive CascadeError where
  | upstream : String → String → CascadeError
  | extraction : String → String → CascadeError

/-- The fetch a cascade step performs, shared with `make_request`'s
    response handling. -/
def fetchOutcome (env : Env) (req : Request) : Except PyExc Json :=
  match env req with
  | .fail msg => .error (.exc ("Network error: " ++ msg))
  | .resp status ct body jb =>
    if status = 200 then
      if containsSubstr ct "application/json" then
        match jb with
        | some j => .ok j
        | none => .error .jsonDecode
      else .ok (.obj [("text", .str body), ("content_type", .str ct)])
    else .error (.exc ("API request failed: " ++ toString status ++ " - " ++ body))

/-- Modelled from the spec: run the steps in order; fail fast with a
    `CascadeError` naming the step on an upstream failure or on a successful
    fetch whose required extraction yields nothing, issuing no later step's
    request; otherwise produce the final step's result and the full context. -/
def runCascade (env : Env) (ctx : List (String × Json)) :
    List CascadeStep → Except CascadeError (Json × List (String × Json)) × List Request
  | [] => (.ok (.null, ctx), [])
  | step :: rest =>
    let req := step.buildReq ctx
    match fetchOutcome env req with
    | .error e => (.error (.upstream step.name (excStr e)), [req])
    | .ok j =>
      match step.extract j with
      | none => (.error (.extraction step.name "no matching record found"), [req])
      | some v =>
        let ctx2 := ctx ++ [(step.extractKey, v)]
        match rest with
        | [] => (.ok (j, ctx2), [req])
        | r2 :: rs =>
          let tail := runCascade env ctx2 (r2 :: rs)
          (tail.1, req :: tail.2)

/-- C2: for every tool, when its argument validation fails the invocation
    raises synchronously with the tool's validation message and the list of
    issued upstream requests is empty — no network effect precedes a
    completed, successful validation. -/
theorem validation_short_circuits_before_network (env : Env) (args : Args) :
    (validate_protein_search_args args = false →
      search_proteins env args = (.error (.exc "Invalid protein search arguments"), []) ∧
      search_pdb_structures env args = (.error (.exc "Invalid PDB search arguments"), [])) ∧
    (validate_accession_args args = false →
      get_protein_info env args = (.error (.exc "Invalid accession arguments"), []) ∧
      get_protein_sequence env args = (.error (.exc "Invalid accession arguments"), []) ∧
      get_protein_pathways env args = (.error (.exc "Invalid accession arguments"), []) ∧
      comprehensive_protein_analysis env args = (.error (.exc "Invalid accession arguments"), [])) ∧
    (validate_pdb_id_args args = false →
      get_pdb_structure_info env args = (.error (.exc "Invalid PDB ID arguments"), [])) ∧
    (validate_go_term_args args = false →
      search_go_terms env args = (.error (.exc "Invalid GO term arguments"), [])) ∧
    (validate_pathway_search_args args = false →
      search_pathways env args = (.error (.exc "Invalid pathway search arguments"), [])) := by
  refine ⟨fun h => ⟨?_, ?_⟩, fun h => ⟨?_, ?_, ?_, ?_⟩, fun h => ?_, fun h => ?_, fun h => ?_⟩
  · simp [search_proteins, h]
  · simp [search_pdb_structures, h]
  · simp [get_protein_info, h]
  · simp [get_protein_sequence, h]
  · simp [get_protein_pathways, h]
  · simp [comprehensive_protein_analysis, h]
  · simp [get_pdb_structure_info, h]
  · simp [search_go_terms, h]
  · simp [search_pathways, h]

/-- C2 witness: with no arguments every validator fails, and each tool
    raises without issuing a request. -/
theorem validation_short_circuits_witness :
    validate_protein_search_args [] = false ∧
    validate_accession_args [] = false ∧
    validate_pdb_id_args [] = false ∧
    validate_go_term_args [] = false ∧
    validate_pathway_search_args [] = false ∧
    search_proteins (fun _ => .fail "boom") [] = (.error (.exc "Invalid protein search arguments"), []) ∧
    comprehensive_protein_analysis (fun _ => .fail "boom") [] = (.error (.exc "Invalid accession arguments"), []) ∧
    get_pdb_structure_info (fun _ => .fail "boom") [] = (.error (.exc "Invalid PDB ID arguments"), []) ∧
    search_go_terms (fun _ => .fail "boom") [] = (.error (.exc "Invalid GO term arguments"), []) ∧
    search_pathways (fun _ => .fail "boom") [] = (.error (.exc "Invalid pathway search arguments"), []) := by
  have h := validation_short_circuits_before_network (fun _ => .fail "boom") []
  exact ⟨rfl, rfl, rfl, rfl, rfl,
    (h.1 rfl).1, (h.2.1 rfl).2.2.2, h.2.2.1 rfl, h.2.2.2.1 rfl, h.2.2.2.2 rfl⟩

/-- C3: for every tool name (known or not) and every argument mapping, the
    dispatch handler returns a result: whatever the dispatched tool raises
    is converted at the boundary into an error-flagged payload, and an
    unknown name yields an `エラー: Unknown tool` payload rather than an
    exception. -/
theorem handle_call_tool_never_raises (env : Env) (name : String) (args : Args) :
    (∃ r, handle_call_tool env name args = (.ok r, (dispatch env name args).2)) ∧
    handle_call_tool env "no_such_tool" args =
      (.ok ⟨.plain "エラー: Unknown tool: no_such_tool", true⟩, []) := by
  constructor
  · match h : (dispatch env name args).1 with
    | .ok r => exact ⟨r, by simp [handle_call_tool, h]⟩
    | .error e =>
      exact ⟨⟨.plain ("エラー: " ++ excStr e), true⟩, by simp [handle_call_tool, h]⟩
  · rfl

/-- C4: putting a value under a fingerprint and getting that fingerprint
    before the entry's TTL has elapsed returns the identical value;
    getting it once the TTL has elapsed returns absent, even though the
    entry may still be physically stored. -/
theorem cache_ttl_roundtrip (c : ResultCache) (fp : String) (v : Json) (t u : Nat) :
    (u < t + c.ttl → ResultCache.get (ResultCache.put c fp v t) fp u = some v) ∧
    (t + c.ttl ≤ u → ResultCache.get (ResultCache.put c fp v t) fp u = none) := by
  constructor
  · intro h
    simp [ResultCache.put, ResultCache.get, List.lookup, h]
  · intro h
    simp [ResultCache.put, ResultCache.get, List.lookup, Nat.not_lt.mpr h]

/-- C4 witness: with a 3600-tick TTL, a value stored at tick 10 is returned
    at tick 10 and absent at tick 3610. -/
theorem cache_ttl_roundtrip_witness :
    ((10 : Nat) < 10 + 3600 ∧
      ResultCache.get (ResultCache.put ⟨3600, 2048, []⟩ "fp" (.num 7) 10) "fp" 10 =
        some (.num 7)) ∧
    ((10 : Nat) + 3600 ≤ 3610 ∧
      ResultCache.get (ResultCache.put ⟨3600, 2048, []⟩ "fp" (.num 7) 10) "fp" 3610 = none) :=
  ⟨⟨by decide, (cache_ttl_roundtrip ⟨3600, 2048, []⟩ "fp" (.num 7) 10 10).1 (by decide)⟩,
   ⟨by decide, (cache_ttl_roundtrip ⟨3600, 2048, []⟩ "fp" (.num 7) 10 3610).2 (by decide)⟩⟩

/-- C5: when a cascade step's fetch succeeds but its required extraction
    yields nothing, the resolver fails with a `CascadeError` naming that
    step and the extraction reason, and the only request issued is that
    step's own — no later step's request is ever sent. -/
theorem cascade_extraction_short_circuit (env : Env) (ctx : List (String × Json))
    (step : CascadeStep) (rest : List CascadeStep) (j : Json)
    (hfetch : fetchOutcome env (step.buildReq ctx) = .ok j)
    (hext : step.extract j = none) :
    runCascade env ctx (step :: rest) =
      (.error (.extraction step.name "no matching record found"), [step.buildReq ctx]) := by
  simp [runCascade, hfetch, hext]

/-- C5 witness: a first step whose fetch succeeds with an empty payload and
    extracts nothing stops the cascade before the second step's request. -/
theorem cascade_extraction_witness :
    fetchOutcome (fun _ => .resp 200 "application/json" "" (some .null))
        ⟨"GET", "https://one", [], none⟩ = .ok .null ∧
    runCascade (fun _ => .resp 200 "application/json" "" (some .null)) []
      [⟨"step-one", fun _ => ⟨"GET", "https://one", [], none⟩, "accession", fun _ => none⟩,
       ⟨"step-two", fun _ => ⟨"GET", "https://two", [], none⟩, "detail", fun j => some j⟩] =
      (.error (.extraction "step-one" "no matching record found"),
       [⟨"GET", "https://one", [], none⟩]) :=
  ⟨rfl,
   cascade_extraction_short_circuit (fun _ => .resp 200 "application/json" "" (some .null)) []
     ⟨"step-one", fun _ => ⟨"GET", "https://one", [], none⟩, "accession", fun _ => none⟩
     [⟨"step-two", fun _ => ⟨"GET", "https://two", [], none⟩, "detail", fun j => some j⟩]
     .null rfl rfl⟩

/-- C6: on a success-status response, `make_request` returns the decoded
    payload when the declared content type contains `application/json`, and
    otherwise the raw body text verbatim tagged with the content type. -/
theorem content_negotiation (env : Env) (url : String) (params : List (String × Json))
    (ct body : String) (jb : Option Json)
    (henv : env ⟨"GET", url, params, none⟩ = .resp 200 ct body jb) :
    (∀ j, containsSubstr ct "application/json" = true → jb = some j →
      (make_request env url params).1 = .ok j) ∧
    (containsSubstr ct "application/json" = false →
      (make_request env url params).1 =
        .ok (.obj [("text", .str body), ("content_type", .str ct)])) := by
  constructor
  · intro j hct hjb
    simp [make_request, henv, hct, hjb]
  · intro hct
    simp [make_request, henv, hct]

/-- C6 witness: a JSON response is decoded; a `text/plain` response comes
    back as its raw text tagged with the content type. -/
theorem content_negotiation_witness :
    (make_request (fun _ => .resp 200 "application/json" "[]" (some (.arr []))) "https://u" []).1 =
      .ok (.arr []) ∧
    (make_request (fun _ => .resp 200 "text/plain" "hi" none) "https://u" []).1 =
      .ok (.obj [("text", .str "hi"), ("content_type", .str "text/plain")]) :=
  ⟨(content_negotiation (fun _ => .resp 200 "application/json" "[]" (some (.arr [])))
      "https://u" [] "application/json" "[]" (some (.arr [])) rfl).1 (.arr []) rfl rfl,
   (content_negotiation (fun _ => .resp 200 "text/plain" "hi" none)
      "https://u" [] "text/plain" "hi" none rfl).2 rfl⟩

/-- `make_request` always issues exactly the one GET request it was asked
    for, whatever the network answers. -/
theorem make_request_one_request (env : Env) (url : String) (params : List (String × Json)) :
    (make_request env url params).2 = [⟨"GET", url, params, none⟩] := by
  simp only [make_request]
  cases h : env ⟨"GET", url, params, none⟩ with
  | fail m => rfl
  | resp st ct body jb =>
    by_cases h2 : st = 200 <;> by_cases h3 : containsSubstr ct "application/json" = true <;>
      cases jb <;> simp [h2, h3]

/-- C7 (amended): valid protein-search arguments are accepted, with `size`
    and `format` normalized to the documented defaults 25 and json in the
    issued request; a missing `query` or a `size` outside `[1, 500]` is
    rejected with the fixed reason `Invalid protein search arguments`,
    which names the tool rather than the offending field. -/
theorem protein_search_validation (env : Env) (args : Args) :
    (validate_protein_search_args args = true →
      List.lookup "organism" args = none →
      List.lookup "size" args = none →
      List.lookup "format" args = none →
      (search_proteins env args).2 =
        [⟨"GET", apiUniprot ++ "/uniprotkb/search",
          [("query", .str (jStr (pyGet args "query"))),
           ("format", .str "json"), ("size", .num 25)], none⟩]) ∧
    (List.lookup "query" args = none →
      search_proteins env args = (.error (.exc "Invalid protein search arguments"), [])) ∧
    (∀ n : Int, List.lookup "size" args = some (.num n) → (n < 1 ∨ 500 < n) →
      search_proteins env args = (.error (.exc "Invalid protein search arguments"), [])) := by
  refine ⟨?_, ?_, ?_⟩
  · intro hval ho hs hf
    simp [search_proteins, hval, pyGet, ho, hs, hf, pyTruthy, make_request_one_request]
  · intro hq
    simp [search_proteins, validate_protein_search_args, pyGet, hq, isNonBlankStr]
  · intro n hs hn
    have hfalse : sizeOk (.num n) = false := by
      simp [sizeOk, pyIntVal]
      omega
    simp [search_proteins, validate_protein_search_args, hs, hfalse]

/-- C7 witness: a query-only argument mapping is valid, and the issued
    request carries the defaults `format=json`, `size=25`. -/
theorem protein_search_validation_witness :
    validate_protein_search_args [("query", Json.str "amyloid")] = true ∧
    (search_proteins (fun _ => .fail "x") [("query", Json.str "amyloid")]).2 =
      [⟨"GET", apiUniprot ++ "/uniprotkb/search",
        [("query", .str "amyloid"), ("format", .str "json"), ("size", .num 25)], none⟩] :=
  ⟨rfl, by
    have h := (protein_search_validation (fun _ => .fail "x")
      [("query", Json.str "amyloid")]).1 rfl rfl rfl rfl
    exact h⟩

/-- C7 counterexample: rejected argument mappings — `query` missing, or
    `size` out of bounds — produce the reason
    `Invalid protein search arguments`, which mentions neither the `query`
    field nor the `size` field. -/
theorem rejection_reason_lacks_field_name :
    search_proteins (fun _ => .fail "x") [] =
      (.error (.exc "Invalid protein search arguments"), []) ∧
    search_proteins (fun _ => .fail "x") [("query", Json.str "p53"), ("size", Json.num 501)] =
      (.error (.exc "Invalid protein search arguments"), []) ∧
    containsSubstr "Invalid protein search arguments" "query" = false ∧
    containsSubstr "Invalid protein search arguments" "size" = false :=
  ⟨rfl, rfl, rfl, rfl⟩

/-- C8 (amended): every `make_request` call either returns a payload or
    raises one of: a `Network error:`-labelled exception on a client
    connection failure; an `API request failed:` exception on a non-success
    status, carrying the status code and the full, untruncated response
    body; or the undistinguished JSON decode error from a malformed
    JSON-typed payload. A content-type mismatch is not an error. -/
theorem make_request_error_taxonomy (env : Env) (url : String) (params : List (String × Json)) :
    (∃ j, (make_request env url params).1 = .ok j) ∨
    (∃ m, env ⟨"GET", url, params, none⟩ = .fail m ∧
      (make_request env url params).1 = .error (.exc ("Network error: " ++ m))) ∨
    (∃ st ct body jb, env ⟨"GET", url, params, none⟩ = .resp st ct body jb ∧ st ≠ 200 ∧
      (make_request env url params).1 =
        .error (.exc ("API request failed: " ++ toString st ++ " - " ++ body))) ∨
    (∃ ct body, env ⟨"GET", url, params, none⟩ = .resp 200 ct body none ∧
      containsSubstr ct "application/json" = true ∧
      (make_request env url params).1 = .error PyExc.jsonDecode) := by
  cases h : env ⟨"GET", url, params, none⟩ with
  | fail m => exact .inr (.inl ⟨m, rfl, by simp [make_request, h]⟩)
  | resp st ct body jb =>
    by_cases h2 : st = 200
    · subst h2
      by_cases h3 : containsSubstr ct "application/json" = true
      · cases jb with
        | none => exact .inr (.inr (.inr ⟨ct, body, rfl, h3, by simp [make_request, h, h3]⟩))
        | some j => exact .inl ⟨j, by simp [make_request, h, h3]⟩
      · exact .inl ⟨.obj [("text", .str body), ("content_type", .str ct)],
          by simp [make_request, h, h3]⟩
    · exact .inr (.inr (.inl ⟨st, ct, body, jb, rfl, h2, by simp [make_request, h, h2]⟩))

/-- A 1000-character response body, used to exhibit that status-error
    messages embed the body whole. -/
def longBody : String := String.join (List.replicate 100 "0123456789")

set_option maxRecDepth 20000 in
/-- C8 counterexample: a content-type mismatch on a success response yields
    a raw-text success, not a decode error; and a non-success status embeds
    the full 1000-character body in the raised message, untruncated. -/
theorem content_type_mismatch_yields_success :
    make_request (fun _ => .resp 200 "text/x-fasta" "MKV" none) "https://u" [] =
      (.ok (.obj [("text", .str "MKV"), ("content_type", .str "text/x-fasta")]),
       [⟨"GET", "https://u", [], none⟩]) ∧
    (make_request (fun _ => .resp 404 "text/plain" longBody none) "https://u" []).1 =
      .error (.exc ("API request failed: 404 - " ++ longBody)) ∧
    longBody.length = 1000 :=
  ⟨rfl, rfl, rfl⟩

/-- C9: the PDB structure-detail arguments are accepted exactly when
    `pdb_id` is a string whose stripped form is non-empty and 4 characters
    long, and the accepted request targets the detail endpoint for the
    uppercased (raw) `pdb_id`. -/
theorem pdb_id_validation (env : Env) (args : Args) :
    (validate_pdb_id_args args = true ↔
      ∃ s, List.lookup "pdb_id" args = some (.str s) ∧
        pyStrip s ≠ "" ∧ (pyStrip s).length = 4) ∧
    (validate_pdb_id_args args = true →
      (get_pdb_structure_info env args).2 =
        [⟨"GET", apiPdb ++ "/core/entry/" ++ pyUpper (jStr (pyGet args "pdb_id")), [], none⟩]) := by
  constructor
  · constructor
    · intro h
      unfold validate_pdb_id_args pyGet at h
      cases hl : List.lookup "pdb_id" args with
      | none => rw [hl] at h; simp at h
      | some v =>
        rw [hl] at h
        cases v with
        | str s =>
          refine ⟨s, rfl, ?_, ?_⟩
          · simpa using (Bool.and_elim_left h)
          · simpa using (Bool.and_elim_right h)
        | null => simp at h
        | bool b => simp at h
        | num n => simp at h
        | arr xs => simp at h
        | obj kvs => simp at h
    · rintro ⟨s, hl, h1, h2⟩
      simp [validate_pdb_id_args, pyGet, hl, h1, h2]
  · intro h
    simp [get_pdb_structure_info, h, make_request_one_request]

/-- C9 witness: `"1tup"` strips to a 4-character string, is accepted, and
    the issued request targets `/core/entry/1TUP`. -/
theorem pdb_id_validation_witness :
    validate_pdb_id_args [("pdb_id", Json.str "1tup")] = true ∧
    (get_pdb_structure_info (fun _ => .fail "x") [("pdb_id", Json.str "1tup")]).2 =
      [⟨"GET", apiPdb ++ "/core/entry/1TUP", [], none⟩] :=
  ⟨rfl, by
    have h := (pdb_id_validation (fun _ => .fail "x") [("pdb_id", Json.str "1tup")]).2 rfl
    exact h⟩

/-- C10: on a successful PDB search whose decoded response carries a
    `result_set` list, the returned `result_set` is the list's first
    `size` elements (default 25), hence at most `size` entries, while the
    shared validator admits any `size` up to 500. -/
theorem pdb_result_set_truncated (env : Env) (args : Args) (ct body : String)
    (kvs : List (String × Json)) (l : List Json)
    (hval : validate_protein_search_args args = true)
    (henv : env (pdbPostReq args) = .resp 200 ct body (some (.obj kvs)))
    (hct : containsSubstr ct "application/json" = true)
    (hrs : List.lookup "result_set" kvs = some (.arr l)) :
    (search_pdb_structures env args).1 =
      .ok ⟨.jsonText (.obj (setKey kvs "result_set" (.arr (l.take (pdbSize args))))), false⟩ ∧
    (l.take (pdbSize args)).length ≤ pdbSize args ∧
    validate_protein_search_args [("query", Json.str "q"), ("size", Json.num 500)] = true := by
  refine ⟨?_, ?_, rfl⟩
  · simp [search_pdb_structures, hval, henv, hct, limitResultSet, resultSetMember, hrs, sliceJson]
  · simp [List.length_take]

/-- C10 witness: with `size = 1` a two-element `result_set` comes back as
    its first element only. -/
theorem pdb_result_set_truncated_witness :
    validate_protein_search_args [("query", Json.str "q"), ("size", Json.num 1)] = true ∧
    (search_pdb_structures
        (fun _ => .resp 200 "application/json" ""
          (some (.obj [("result_set", .arr [.str "1AAP", .str "2LOH"]), ("total_count", .num 2)])))
        [("query", Json.str "q"), ("size", Json.num 1)]).1 =
      .ok ⟨.jsonText (.obj [("result_set", .arr [.str "1AAP"]), ("total_count", .num 2)]), false⟩ :=
  ⟨rfl, by
    have h := (pdb_result_set_truncated
      (fun _ => .resp 200 "application/json" ""
        (some (.obj [("result_set", .arr [.str "1AAP", .str "2LOH"]), ("total_count", .num 2)])))
      [("query", Json.str "q"), ("size", Json.num 1)] "application/json" ""
      [("result_set", .arr [.str "1AAP", .str "2LOH"]), ("total_count", .num 2)]
      [.str "1AAP", .str "2LOH"] rfl rfl rfl rfl).1
    exact h⟩

/-- The C1 scenario network: the protein-registry and structure-registry
    requests succeed, the pathway-registry request fails. -/
def envAggregate : Env := fun r =>
  if r.url == apiReactome ++ "/data/participants/P04637/pathways" then .fail "timed out"
  else if r.method == "POST" then
    .resp 200 "application/json" ""
      (some (.obj [("result_set", .arr [.str "1TUP"]), ("total_count", .num 1)]))
  else .resp 200 "application/json" "" (some (.obj [("primaryAccession", .str "P04637")]))

set_option maxRecDepth 20000 in
/-- C1: evaluating `comprehensive_protein_analysis` on accession `P04637`
    with the pathway source failing and the other two succeeding: the call
    does not raise, `pathways` is absent (`null`) and the other two source
    fields are populated — but `error_messages` is empty: no error entry
    records the failing source, because the sub-tools convert their own
    failures into `isError`-flagged results instead of raising, so the
    `except` branches that would append an entry never run. -/
theorem aggregate_failure_entry_missing :
    comprehensive_protein_analysis envAggregate [("accession", Json.str "P04637")] =
      (.ok ⟨.jsonText (.obj [
        ("accession", .str "P04637"),
        ("uniprot_info", .obj [("primaryAccession", .str "P04637")]),
        ("pathways", .null),
        ("pdb_structures", .obj [("result_set", .arr [.str "1TUP"]), ("total_count", .num 1)]),
        ("error_messages", .arr [])]), false⟩,
       [⟨"GET", apiUniprot ++ "/uniprotkb/P04637", [("format", .str "json")], none⟩,
        ⟨"GET", apiReactome ++ "/data/participants/P04637/pathways", [], none⟩,
        ⟨"POST", apiPdbSearch, [], some (pdbQueryJson "P04637")⟩]) := rfl

end Promethica
